import Mathlib

/-!
Verification of the round-robin posting engine in `src/post_and_archive.js`.

The development shallowly embeds the script's behaviour:

* the cursor store and media selector (lines 104-134 of the source):
  `parseIntJs` models JavaScript `parseInt(s, 10)`, `natRepr` models
  `Number.prototype.toString` on the non-negative counter that the script
  writes back, `loadIdx` models the counter-loading block, and `selectNext`
  models the whole selection step including the counter write;
* the browser run (lines 140-286): an `Env` record captures the page
  conditions each DOM query observes, `run` mirrors the script's
  control flow and emits an event trace recording the order of the
  cursor write, the network steps, the publish-control retry loop,
  the verification scan and the `finally` cleanup.
-/

namespace TwitterBot

/-! ## Decimal digits and JavaScript-style integer parsing -/

/-- Character for a single decimal digit `d < 10`. -/
def digitChar (d : Nat) : Char := Char.ofNat (48 + d)

/-- Fuel-driven base-10 rendering of a natural number, most significant digit
first.  `natDigitsAux (n+1) n` is the digit list of `n`. -/
def natDigitsAux : Nat → Nat → List Char
  | 0, _ => []
  | fuel + 1, n =>
    if n < 10 then [digitChar n]
    else natDigitsAux fuel (n / 10) ++ [digitChar (n % 10)]

/-- Decimal rendering of a natural number; models `nextIdx.toString()` in the
script (the written counter is always a non-negative integer). -/
def natRepr (n : Nat) : String := String.mk (natDigitsAux (n + 1) n)

/-- Value of a most-significant-first digit list. -/
def digitsToNat (ds : List Char) : Nat :=
  ds.foldl (fun a c => a * 10 + (c.toNat - 48)) 0

/-- Longest leading run of decimal digits, as a number; `none` when the input
does not start with a digit.  Used by `parseIntJs`. -/
def parseDigits (cs : List Char) : Option Nat :=
  let ds := cs.takeWhile Char.isDigit
  if ds.isEmpty then none else some (digitsToNat ds)

/-- Model of JavaScript `parseInt(s, 10)`: skip leading whitespace, read an
optional sign, then the longest run of decimal digits; `none` stands for
`NaN` (no digits found).  Trailing garbage is ignored, exactly as in JS. -/
def parseIntJs (s : String) : Option Int :=
  match s.data.dropWhile Char.isWhitespace with
  | [] => none
  | c :: cs =>
    if c = '-' then (parseDigits cs).map (fun m => -(m : Int))
    else if c = '+' then (parseDigits cs).map (fun m => (m : Int))
    else (parseDigits (c :: cs)).map (fun m => (m : Int))

/-! ## The cursor store and media selector

Source (`src/post_and_archive.js` lines 113-134):

```
let idx = 0;
try {
  if (fs.existsSync(COUNTER_FILE)) {
    idx = parseInt(fs.readFileSync(COUNTER_FILE, 'utf-8'), 10);
    if (isNaN(idx) || idx >= files.length) idx = 0;
  }
} catch (e) { idx = 0; }
const fileToPost = files[idx];
const filePath = path.join(IMAGE_DIR, fileToPost);
let nextIdx = idx + 1;
if (nextIdx >= files.length) nextIdx = 0;
try { fs.writeFileSync(COUNTER_FILE, nextIdx.toString(), 'utf-8'); }
catch (e) { console.warn('Could not write counter file:', e); }
```

The cursor file content is modelled as `Option String` (`none` when the file
is missing or unreadable).  Note the guard resets the index on `NaN` and on
`idx >= files.length` only: a negative parsed value survives the guard, makes
`files[idx]` come out `undefined`, and `path.join(IMAGE_DIR, undefined)`
throws before the counter is written — modelled by the `badPath` error. -/

/-- Index loaded from the cursor file, after the script's reset guard. -/
def loadIdx (files : List String) (content : Option String) : Int :=
  match content with
  | none => 0
  | some s =>
    match parseIntJs s with
    | none => 0
    | some v => if (files.length : Int) ≤ v then 0 else v

/-- Counter value written back for the next run:
`nextIdx = idx + 1; if (nextIdx >= files.length) nextIdx = 0`. -/
def nextIdx (files : List String) (i : Nat) : Nat :=
  if files.length ≤ i + 1 then 0 else i + 1

/-- Errors the selection step can exit with: `emptyQueue` is the
`process.exit(1)` on an empty file list, `badPath` the `TypeError` thrown by
`path.join` when a negative cursor makes `files[idx]` undefined. -/
inductive SelErr
  | emptyQueue
  | badPath
deriving DecidableEq, Repr

/-- Successful selection: the file posted, its index, and the counter value
written back for the next run. -/
structure Selection where
  file : String
  index : Nat
  next : Nat
deriving DecidableEq, Repr

/-- Outcome of the selection step. -/
inductive SelResult
  | err (e : SelErr)
  | ok (s : Selection)
deriving DecidableEq, Repr

/-- The whole selection step of one run: the selection outcome together with
the counter write it performs (`none` when the step exits before the write). -/
def selectNext (files : List String) (content : Option String) :
    SelResult × Option Nat :=
  if files.isEmpty then (.err .emptyQueue, none)
  else
    let idx := loadIdx files content
    if idx < 0 then (.err .badPath, none)
    else
      let i := idx.toNat
      (.ok ⟨files.getD i "", i, nextIdx files i⟩, some (nextIdx files i))

/-- Consecutive runs of the selection step: each run rewrites the cursor file
with the decimal rendering of the written counter, which the next run
re-reads and re-parses. -/
def runStream (files : List String) : Option String → Nat → List (SelResult × Option Nat)
  | _, 0 => []
  | c, k + 1 =>
    let r := selectNext files c
    let c' := match r.2 with
      | some n => some (natRepr n)
      | none => c
    r :: runStream files c' k

/-! ## Round-trip: the written counter re-parses to itself -/

theorem natDigitsAux_congr (n : Nat) : ∀ f g : Nat, n < f → n < g →
    natDigitsAux f n = natDigitsAux g n := by
  induction n using Nat.strong_induction_on with
  | _ n ih =>
    intro f g hf hg
    cases f with
    | zero => omega
    | succ f' =>
      cases g with
      | zero => omega
      | succ g' =>
        simp only [natDigitsAux]
        by_cases h : n < 10
        · simp [h]
        · rw [if_neg h, if_neg h, ih (n / 10) (by omega) f' g' (by omega) (by omega)]

theorem natDigits_small {n : Nat} (h : n < 10) :
    natDigitsAux (n + 1) n = [digitChar n] := by
  simp [natDigitsAux, h]

theorem natDigits_step {n : Nat} (h : ¬ n < 10) :
    natDigitsAux (n + 1) n = natDigitsAux (n / 10 + 1) (n / 10) ++ [digitChar (n % 10)] := by
  conv_lhs => rw [natDigitsAux]
  rw [if_neg h, natDigitsAux_congr (n / 10) n (n / 10 + 1) (by omega) (by omega)]

theorem digitChar_isDigit {d : Nat} (h : d < 10) : (digitChar d).isDigit = true := by
  interval_cases d <;> decide

theorem digitChar_toNat {d : Nat} (h : d < 10) : (digitChar d).toNat = 48 + d := by
  interval_cases d <;> decide

theorem natDigits_all_digits (n : Nat) :
    ∀ c ∈ natDigitsAux (n + 1) n, c.isDigit = true := by
  induction n using Nat.strong_induction_on with
  | _ n ih =>
    by_cases h : n < 10
    · rw [natDigits_small h]
      intro c hc
      simp at hc
      subst hc
      exact digitChar_isDigit h
    · rw [natDigits_step h]
      intro c hc
      rcases List.mem_append.mp hc with hc | hc
      · exact ih (n / 10) (by omega) c hc
      · simp at hc
        subst hc
        exact digitChar_isDigit (by omega)

theorem natDigits_ne_nil (n : Nat) : natDigitsAux (n + 1) n ≠ [] := by
  by_cases h : n < 10
  · rw [natDigits_small h]; simp
  · rw [natDigits_step h]; simp

theorem foldl_natDigits (n : Nat) : ∀ a : Nat,
    List.foldl (fun a c => a * 10 + (c.toNat - 48)) a (natDigitsAux (n + 1) n)
      = a * 10 ^ (natDigitsAux (n + 1) n).length + n := by
  induction n using Nat.strong_induction_on with
  | _ n ih =>
    intro a
    by_cases h : n < 10
    · rw [natDigits_small h]
      simp only [List.foldl_cons, List.foldl_nil, List.length_cons, List.length_nil,
        Nat.zero_add]
      rw [digitChar_toNat h, pow_one]
      omega
    · rw [natDigits_step h, List.foldl_append, ih (n / 10) (by omega) a]
      simp only [List.foldl_cons, List.foldl_nil, List.length_append, List.length_cons,
        List.length_nil, Nat.zero_add]
      rw [digitChar_toNat (show n % 10 < 10 by omega), pow_succ]
      have key : n / 10 * 10 + n % 10 = n := by omega
      have h48 : 48 + n % 10 - 48 = n % 10 := by omega
      rw [h48]
      calc (a * 10 ^ (natDigitsAux (n / 10 + 1) (n / 10)).length + n / 10) * 10 + n % 10
          = a * (10 ^ (natDigitsAux (n / 10 + 1) (n / 10)).length * 10)
            + (n / 10 * 10 + n % 10) := by ring
        _ = _ := by rw [key]

theorem digitsToNat_natDigits (n : Nat) : digitsToNat (natDigitsAux (n + 1) n) = n := by
  have h := foldl_natDigits n 0
  simpa [digitsToNat] using h

theorem digit_not_ws {c : Char} (h : c.isDigit = true) : c.isWhitespace = false := by
  cases hw : c.isWhitespace
  · rfl
  · exfalso
    simp only [Char.isWhitespace, Bool.or_eq_true, decide_eq_true_eq] at hw
    rcases hw with ((h1 | h1) | h1) | h1 <;> subst h1 <;> exact absurd h (by decide)

theorem takeWhile_all_digits : ∀ {l : List Char},
    (∀ c ∈ l, Char.isDigit c = true) → l.takeWhile Char.isDigit = l := by
  intro l
  induction l with
  | nil => intro _; rfl
  | cons c t iht =>
    intro h
    rw [List.takeWhile_cons, h c (by simp)]
    simp [iht (fun x hx => h x (by simp [hx]))]

/-- The counter that the script writes back re-parses to itself on the next
run: `parseInt(n.toString(), 10) = n`. -/
theorem parseIntJs_natRepr (n : Nat) : parseIntJs (natRepr n) = some (n : Int) := by
  unfold parseIntJs natRepr
  cases hL : natDigitsAux (n + 1) n with
  | nil => exact absurd hL (natDigits_ne_nil n)
  | cons c t =>
    have hall := natDigits_all_digits n
    rw [hL] at hall
    have hcd : c.isDigit = true := hall c (by simp)
    have hdata : (String.mk (c :: t)).data = c :: t := rfl
    rw [hdata, List.dropWhile_cons, digit_not_ws hcd]
    simp only [Bool.false_eq_true, if_false]
    rw [if_neg (by rintro rfl; exact absurd hcd (by decide)),
        if_neg (by rintro rfl; exact absurd hcd (by decide))]
    have htw : (c :: t).takeWhile Char.isDigit = c :: t := takeWhile_all_digits hall
    have hval : digitsToNat (c :: t) = n := by rw [← hL]; exact digitsToNat_natDigits n
    simp [parseDigits, htw, hval]

/-! ## Selection lemmas -/

theorem loadIdx_lt (files : List String) (content : Option String) (h : files ≠ []) :
    loadIdx files content < (files.length : Int) := by
  have hpos : 0 < files.length := List.length_pos.mpr h
  have hcast : (0 : Int) < (files.length : Int) := by exact_mod_cast hpos
  cases content with
  | none => simpa [loadIdx] using hcast
  | some s =>
    cases hp : parseIntJs s with
    | none => simpa [loadIdx, hp] using hcast
    | some v =>
      by_cases hv : (files.length : Int) ≤ v
      · simpa [loadIdx, hp, hv] using hcast
      · simp only [loadIdx, hp, hv, if_false]
        omega

theorem nextIdx_eq_mod (files : List String) (i : Nat) (h : i < files.length) :
    nextIdx files i = (i + 1) % files.length := by
  unfold nextIdx
  by_cases h2 : files.length ≤ i + 1
  · have : i + 1 = files.length := by omega
    simp [h2, this]
  · rw [if_neg h2, Nat.mod_eq_of_lt (by omega)]

/-- A run whose cursor file contains the decimal rendering of `c < n` selects
file `c` and writes back `(c + 1) % n`. -/
theorem selectNext_at (files : List String) (c : Nat) (h : c < files.length) :
    selectNext files (some (natRepr c)) =
      (.ok ⟨files.getD c "", c, (c + 1) % files.length⟩,
       some ((c + 1) % files.length)) := by
  have hne : files ≠ [] := by rintro rfl; simp at h
  have hnle : ¬ ((files.length : Int) ≤ (c : Int)) := by exact_mod_cast Nat.not_le.mpr h
  have hidx : loadIdx files (some (natRepr c)) = (c : Int) := by
    simp [loadIdx, parseIntJs_natRepr c, hnle]
  have hemp : files.isEmpty = false := by
    cases files with
    | nil => exact absurd rfl hne
    | cons a t => rfl
  simp only [selectNext, hemp, Bool.false_eq_true, if_false, hidx]
  rw [if_neg (by omega : ¬ ((c : Int) < 0))]
  simp [nextIdx_eq_mod files c h]

theorem runStream_eq (files : List String) (h : files ≠ []) :
    ∀ (m c : Nat), c < files.length →
      runStream files (some (natRepr c)) m =
        (List.range m).map (fun j =>
          (SelResult.ok ⟨files.getD ((c + j) % files.length) "", (c + j) % files.length,
            ((c + j) % files.length + 1) % files.length⟩,
           some (((c + j) % files.length + 1) % files.length))) := by
  have hpos : 0 < files.length := List.length_pos.mpr h
  intro m
  induction m with
  | zero => intro c _; rfl
  | succ m ihm =>
    intro c hc
    rw [runStream]
    rw [selectNext_at files c hc]
    simp only
    rw [ihm ((c + 1) % files.length) (Nat.mod_lt _ hpos)]
    rw [List.range_succ_eq_map, List.map_cons, List.map_map]
    congr 1
    · simp [Nat.mod_eq_of_lt hc]
    · apply List.map_congr_left
      intro j _
      have h1 : ((c + 1) % files.length + j) % files.length = (c + (j + 1)) % files.length := by
        rw [Nat.mod_add_mod]
        congr 1
        omega
      simp [Function.comp, h1]

/-- Extracting the file of each run result (empty string on error). -/
def streamFiles (rs : List (SelResult × Option Nat)) : List String :=
  rs.map (fun p =>
    match p.1 with
    | .ok s => s.file
    | .err _ => "")

theorem map_getD_range (l : List String) :
    (List.range l.length).map (fun k => l.getD k "") = l := by
  induction l with
  | nil => rfl
  | cons a t iht =>
    rw [List.length_cons, List.range_succ_eq_map, List.map_cons, List.map_map]
    simp only [List.getD_cons_zero]
    rw [show (fun k => (a :: t).getD k "") ∘ Nat.succ = fun k => t.getD k "" from
      funext fun k => by simp, iht]

/-! ## The browser run (lines 140-286 of the source)

The page is an opaque external system; an `Env` records, for each DOM query
the script performs, what that query would observe.  Two fields
(`afterLoginMarker`, `attachmentMarker`) describe page conditions that the
specification talks about; whether the script reads them is exactly what the
corresponding claims ask, so they are part of the environment and the
theorems settle whether `run` depends on them. -/

/-- One publish-control candidate as the script sees it: its `innerText` and
the combined `el.disabled || el.getAttribute("aria-disabled") === "true"`
state. -/
abbrev Btn := String × Bool

/-- Environment of one run: directory snapshot, cursor file content, and the
observable page behaviour of every DOM interaction. -/
structure Env where
  /-- Eligible files after the extension filter and sort (line 104-106). -/
  files : List String
  /-- Content of the counter file; `none` when missing or unreadable. -/
  cursor : Option String
  /-- Whether `fs.writeFileSync(COUNTER_FILE, …)` succeeds (line 131). -/
  counterWriteOk : Bool
  /-- Whether `puppeteer.launch` succeeds (line 141). -/
  launchOk : Bool
  /-- Result of the authenticated-marker probe on the login page (line 167). -/
  alreadyLoggedIn : Bool
  /-- Whether every wait inside the interactive login flow succeeds
  (lines 168-190). -/
  loginFlowOk : Bool
  /-- What a re-probe of the authenticated markers after the login flow would
  observe.  The claims ask whether the script consults this. -/
  afterLoginMarker : Bool
  /-- Whether the compose-box marker appears (line 202). -/
  composeOk : Bool
  /-- Whether the `input[type="file"]` control appears (line 206). -/
  fileInputOk : Bool
  /-- Whether an "attachment accepted" marker would appear after the upload.
  The claims ask whether the script consults this. -/
  attachmentMarker : Bool
  /-- Publish-control candidates each retry attempt scans (line 212). -/
  buttons : Nat → List Btn
  /-- Texts of the `alertdialog`/`dialog` elements found after posting
  (line 235). -/
  modals : List String

/-- Observable events of one run, in program order. -/
inductive Ev
  | exitEmpty
  | writeCursor (n : Nat)
  | warnCursorWrite (n : Nat)
  | launch
  | gotoLogin
  | probeLogin (r : Bool)
  | typeCredentials
  | loginDiag
  | gotoCompose
  | waitCompose (ok : Bool)
  | waitFileInput (ok : Bool)
  | attach (file : String)
  | settle
  | scan (k : Nat)
  | retrySleep (k : Nat)
  | click (k : Nat) (label : String)
  | verifySleep
  | verifyShot
  | scanDialogs (texts : List String)
  | logPosted (file : String)
  | dumpComposeHtml
  | errorDiag
  | emailSent
  | closeBrowser
deriving DecidableEq, Repr

/-- Errors a browser run can end with. -/
inductive RunError
  | launchError
  | loginFlow
  | composeTimeout
  | fileInputTimeout
  | noPublishButton
deriving DecidableEq, Repr

/-- Terminal outcome of the whole script. -/
inductive Outcome
  | emptyQueue
  | badPath
  | posted (file : String)
  | failed (e : RunError)
deriving DecidableEq, Repr

/-- Model of JavaScript `String.prototype.trim`: drop leading and trailing
whitespace. -/
def jsTrim (s : String) : String :=
  String.mk (((s.data.dropWhile Char.isWhitespace).reverse.dropWhile
    Char.isWhitespace).reverse)

/-- ASCII lowering of one character, the case folding the `/i` flag applies to
the candidate labels. -/
def lowerChar (c : Char) : Char :=
  if 'A' ≤ c ∧ c ≤ 'Z' then Char.ofNat (c.toNat + 32) else c

/-- ASCII lowering of a string. -/
def lowerStr (s : String) : String := String.mk (s.data.map lowerChar)

/-- The publish-intent test on a candidate's text:
`/^(Post|Tweet)$/i.test(text.trim())` (line 217) — exact token match,
case-insensitive. -/
def pubLabel (t : String) : Bool :=
  lowerStr (jsTrim t) = "post" || lowerStr (jsTrim t) = "tweet"

/-- The full candidate test of the inner loop (lines 214-221): publish-intent
label and not disabled. -/
def pubPred (b : Btn) : Bool := pubLabel b.1 && !b.2

/-- The inner loop over `btnEls` (lines 214-221): first candidate passing
`pubPred`, if any. -/
def findBtn (btns : List Btn) : Option Btn := btns.find? pubPred

/-- The bounded retry loop (lines 211-230), started as
`publishLoop buttons 8 0`: scan attempt `k`; click the first enabled
Post/Tweet candidate and stop, or sleep 2 s and retry. -/
def publishLoop (btns : Nat → List Btn) : Nat → Nat → List Ev × Option (Nat × String)
  | 0, _ => ([], none)
  | fuel + 1, k =>
    match findBtn (btns k) with
    | some b => ([Ev.scan k, Ev.click k b.1], some (k, b.1))
    | none =>
      let r := publishLoop btns fuel (k + 1)
      (Ev.scan k :: Ev.retrySleep k :: r.1, r.2)

/-- The `try` body (lines 141-251): launch, login, compose, upload, publish
loop, verification.  Returns the trace and the error thrown, if any. -/
def body (e : Env) (file : String) : List Ev × Option RunError :=
  if e.launchOk then
    if e.alreadyLoggedIn then
      compose e file [Ev.launch, Ev.gotoLogin, Ev.probeLogin true]
    else if e.loginFlowOk then
      compose e file [Ev.launch, Ev.gotoLogin, Ev.probeLogin false, Ev.typeCredentials]
    else
      ([Ev.launch, Ev.gotoLogin, Ev.probeLogin false, Ev.typeCredentials, Ev.loginDiag],
       some .loginFlow)
  else ([Ev.launch], some .launchError)
where
  /-- Lines 200-251: navigate to the compose surface, upload, publish. -/
  compose (e : Env) (file : String) (tr : List Ev) : List Ev × Option RunError :=
    if e.composeOk then
      if e.fileInputOk then
        let pre := tr ++ [Ev.gotoCompose, Ev.waitCompose true, Ev.waitFileInput true,
          Ev.attach file, Ev.settle]
        match publishLoop e.buttons 8 0 with
        | (lt, some _) =>
          (pre ++ lt ++ [Ev.verifySleep, Ev.verifyShot, Ev.scanDialogs e.modals,
            Ev.logPosted file], none)
        | (lt, none) =>
          (pre ++ lt ++ [Ev.dumpComposeHtml], some .noPublishButton)
      else
        (tr ++ [Ev.gotoCompose, Ev.waitCompose true, Ev.waitFileInput false],
         some .fileInputTimeout)
    else (tr ++ [Ev.gotoCompose, Ev.waitCompose false], some .composeTimeout)

/-- The `try`/`catch`/`finally` around the browser work (lines 140-286): on an
error, the catch block captures diagnostics (when a page exists) and sends the
alert email, then the `finally` block closes the browser (when one was
launched) and the error is re-raised. -/
def browserRun (e : Env) (file : String) : Outcome × List Ev :=
  match body e file with
  | (tr, none) => (.posted file, tr ++ [Ev.closeBrowser])
  | (tr, some err) =>
    (.failed err,
     tr ++ ((if e.launchOk then [Ev.errorDiag] else []) ++ [Ev.emailSent]
       ++ (if e.launchOk then [Ev.closeBrowser] else [])))

/-- File selected for posting: `files[idx]`. -/
def fileOf (e : Env) : String := e.files.getD (loadIdx e.files e.cursor).toNat ""

/-- Counter value the run writes back for the next run. -/
def nextOf (e : Env) : Nat := nextIdx e.files (loadIdx e.files e.cursor).toNat

/-- Result of one whole run. -/
structure RunResult where
  outcome : Outcome
  trace : List Ev
  /-- Cursor file content after the run. -/
  finalCursor : Option String
deriving DecidableEq, Repr

/-- One whole run of the script: list the directory, load the cursor, select
the file, write the advanced counter, then do the browser work.  An empty
queue exits immediately; a negative loaded index crashes at `path.join`
before the counter write. -/
def run (e : Env) : RunResult :=
  if e.files.isEmpty then ⟨.emptyQueue, [Ev.exitEmpty], e.cursor⟩
  else if loadIdx e.files e.cursor < 0 then ⟨.badPath, [], e.cursor⟩
  else
    let br := browserRun e (fileOf e)
    if e.counterWriteOk then
      ⟨br.1, Ev.writeCursor (nextOf e) :: br.2, some (natRepr (nextOf e))⟩
    else
      ⟨br.1, Ev.warnCursorWrite (nextOf e) :: br.2, e.cursor⟩

/-- Network or browser activity, as opposed to local cursor bookkeeping. -/
def isNetworkEv : Ev → Bool
  | .exitEmpty => false
  | .writeCursor _ => false
  | .warnCursorWrite _ => false
  | _ => true

/-! ## Publish loop lemmas -/

/-- Trace of `i` consecutive unsuccessful scan attempts starting at attempt
`k`: each scans the candidates and sleeps 2 s. -/
def scanTrace (k : Nat) : Nat → List Ev
  | 0 => []
  | i + 1 => Ev.scan k :: Ev.retrySleep k :: scanTrace (k + 1) i

theorem publishLoop_found (btns : Nat → List Btn) (b : Btn) :
    ∀ (i fuel k : Nat), i < fuel →
      (∀ j, j < i → findBtn (btns (k + j)) = none) →
      findBtn (btns (k + i)) = some b →
      publishLoop btns fuel k =
        (scanTrace k i ++ [Ev.scan (k + i), Ev.click (k + i) b.1], some (k + i, b.1)) := by
  intro i
  induction i with
  | zero =>
    intro fuel k hif h0 hb
    cases fuel with
    | zero => omega
    | succ f =>
      rw [show k + 0 = k from rfl] at hb
      simp [publishLoop, hb, scanTrace]
  | succ i ihi =>
    intro fuel k hif h0 hb
    cases fuel with
    | zero => omega
    | succ f =>
      have hk0 : findBtn (btns k) = none := by simpa using h0 0 (by omega)
      rw [show k + (i + 1) = (k + 1) + i by omega] at hb ⊢
      simp only [publishLoop, hk0]
      rw [ihi f (k + 1) (by omega)
        (fun j hj => by
          have := h0 (j + 1) (by omega)
          rwa [show k + (j + 1) = (k + 1) + j by omega] at this) hb]
      simp [scanTrace]

theorem publishLoop_none (btns : Nat → List Btn) :
    ∀ (fuel k : Nat),
      (∀ j, j < fuel → findBtn (btns (k + j)) = none) →
      publishLoop btns fuel k = (scanTrace k fuel, none) := by
  intro fuel
  induction fuel with
  | zero => intro k _; rfl
  | succ f ihf =>
    intro k h
    have hk0 : findBtn (btns k) = none := by simpa using h 0 (by omega)
    simp only [publishLoop, hk0]
    rw [ihf (k + 1) (fun j hj => by
      have := h (j + 1) (by omega)
      rwa [show k + (j + 1) = (k + 1) + j by omega] at this)]
    simp [scanTrace]

/-- A successful `findBtn` returns the first candidate passing `pubPred`:
everything before it in the scanned list fails the test. -/
theorem findBtn_first (l : List Btn) (b : Btn) (h : findBtn l = some b) :
    pubPred b = true ∧ ∃ l1 l2, l = l1 ++ b :: l2 ∧ ∀ x ∈ l1, pubPred x = false := by
  induction l with
  | nil => simp [findBtn, List.find?] at h
  | cons a t iht =>
    by_cases hp : pubPred a = true
    · rw [findBtn, List.find?_cons_of_pos _ hp, Option.some.injEq] at h
      subst h
      exact ⟨hp, [], t, rfl, by simp⟩
    · rw [findBtn, List.find?_cons_of_neg _ hp] at h
      obtain ⟨hb, l1, l2, heq, hall⟩ := iht h
      refine ⟨hb, a :: l1, l2, by rw [heq]; rfl, ?_⟩
      intro x hx
      rcases List.mem_cons.mp hx with rfl | hx2
      · exact Bool.eq_false_iff.mpr hp
      · exact hall x hx2

/-! ## Run decomposition lemmas -/

theorem run_selecting (e : Env) (hne : e.files.isEmpty = false)
    (hidx : ¬ loadIdx e.files e.cursor < 0) :
    run e =
      if e.counterWriteOk then
        ⟨(browserRun e (fileOf e)).1,
         Ev.writeCursor (nextOf e) :: (browserRun e (fileOf e)).2,
         some (natRepr (nextOf e))⟩
      else
        ⟨(browserRun e (fileOf e)).1,
         Ev.warnCursorWrite (nextOf e) :: (browserRun e (fileOf e)).2,
         e.cursor⟩ := by
  rw [run, hne]
  simp only [Bool.false_eq_true, if_false, hidx]

/-- Events of the login phase on the path where authentication succeeds. -/
def loginTrace (e : Env) : List Ev :=
  if e.alreadyLoggedIn then [Ev.launch, Ev.gotoLogin, Ev.probeLogin true]
  else [Ev.launch, Ev.gotoLogin, Ev.probeLogin false, Ev.typeCredentials]

/-- Events after the publish loop on the good path: the verification phase
when a button was clicked, the markup dump when the attempts ran out. -/
def postTrace (e : Env) (file : String) : List Ev :=
  match (publishLoop e.buttons 8 0).2 with
  | some _ => [Ev.verifySleep, Ev.verifyShot, Ev.scanDialogs e.modals, Ev.logPosted file]
  | none => [Ev.dumpComposeHtml]

/-- Error the `try` body ends with on the good path. -/
def postErr (e : Env) : Option RunError :=
  match (publishLoop e.buttons 8 0).2 with
  | some _ => none
  | none => some .noPublishButton

theorem body_goodpath (e : Env) (file : String) (hl : e.launchOk = true)
    (hlog : e.alreadyLoggedIn = true ∨ e.loginFlowOk = true)
    (hcomp : e.composeOk = true) (hfi : e.fileInputOk = true) :
    body e file =
      (loginTrace e ++ [Ev.gotoCompose, Ev.waitCompose true, Ev.waitFileInput true,
        Ev.attach file, Ev.settle] ++ (publishLoop e.buttons 8 0).1 ++ postTrace e file,
       postErr e) := by
  rcases hpl : publishLoop e.buttons 8 0 with ⟨lt, r⟩
  by_cases ha : e.alreadyLoggedIn = true
  · rw [body, hl, if_pos rfl, ha, if_pos rfl, body.compose, hcomp, if_pos rfl, hfi,
      if_pos rfl, hpl]
    cases r <;> simp [loginTrace, ha, postTrace, postErr, hpl]
  · have hlf : e.loginFlowOk = true := by
      rcases hlog with h1 | h1
      · exact absurd h1 ha
      · exact h1
    have ha2 : e.alreadyLoggedIn = false := by
      cases h2 : e.alreadyLoggedIn
      · rfl
      · exact absurd h2 ha
    rw [body, hl, if_pos rfl, ha2]
    simp only [Bool.false_eq_true, if_false]
    rw [hlf, if_pos rfl, body.compose, hcomp, if_pos rfl, hfi, if_pos rfl, hpl]
    cases r <;> simp [loginTrace, ha2, postTrace, postErr, hpl]

/-- Cursor-write event of a selecting run: a successful write or the logged
warning. -/
def cursorEv (e : Env) : Ev :=
  if e.counterWriteOk then Ev.writeCursor (nextOf e) else Ev.warnCursorWrite (nextOf e)

theorem run_trace_eq (e : Env) (hne : e.files.isEmpty = false)
    (hidx : ¬ loadIdx e.files e.cursor < 0) :
    (run e).trace = cursorEv e :: (browserRun e (fileOf e)).2 := by
  rw [run_selecting e hne hidx, cursorEv]
  by_cases hw : e.counterWriteOk = true <;> simp [hw]

theorem run_outcome_eq (e : Env) (hne : e.files.isEmpty = false)
    (hidx : ¬ loadIdx e.files e.cursor < 0) :
    (run e).outcome = (browserRun e (fileOf e)).1 := by
  rw [run_selecting e hne hidx]
  by_cases hw : e.counterWriteOk = true <;> simp [hw]

theorem run_finalCursor_eq (e : Env) (hne : e.files.isEmpty = false)
    (hidx : ¬ loadIdx e.files e.cursor < 0) :
    (run e).finalCursor =
      if e.counterWriteOk then some (natRepr (nextOf e)) else e.cursor := by
  rw [run_selecting e hne hidx]
  by_cases hw : e.counterWriteOk = true <;> simp [hw]

/-- Tail of the good-path trace after the publish loop, `finally` included. -/
def finTrace (e : Env) (file : String) : List Ev :=
  match (publishLoop e.buttons 8 0).2 with
  | some _ => [Ev.verifySleep, Ev.verifyShot, Ev.scanDialogs e.modals,
      Ev.logPosted file, Ev.closeBrowser]
  | none => [Ev.dumpComposeHtml, Ev.errorDiag, Ev.emailSent, Ev.closeBrowser]

theorem browserRun_goodtrace (e : Env) (file : String) (hl : e.launchOk = true)
    (hlog : e.alreadyLoggedIn = true ∨ e.loginFlowOk = true)
    (hcomp : e.composeOk = true) (hfi : e.fileInputOk = true) :
    (browserRun e file).2 =
      loginTrace e ++ [Ev.gotoCompose, Ev.waitCompose true, Ev.waitFileInput true,
        Ev.attach file, Ev.settle] ++ (publishLoop e.buttons 8 0).1
        ++ finTrace e file := by
  rcases hp : (publishLoop e.buttons 8 0).2 with _ | p <;>
    rw [browserRun, body_goodpath e file hl hlog hcomp hfi] <;>
    simp [postErr, postTrace, finTrace, hp, hl, List.append_assoc]

theorem browserRun_outcome_good (e : Env) (file : String) (hl : e.launchOk = true)
    (hlog : e.alreadyLoggedIn = true ∨ e.loginFlowOk = true)
    (hcomp : e.composeOk = true) (hfi : e.fileInputOk = true) :
    (browserRun e file).1 =
      match (publishLoop e.buttons 8 0).2 with
      | some _ => Outcome.posted file
      | none => Outcome.failed .noPublishButton := by
  rcases hp : (publishLoop e.buttons 8 0).2 with _ | p <;>
    rw [browserRun, body_goodpath e file hl hlog hcomp hfi] <;>
    simp [postErr, hp]

theorem publishLoop_head (btns : Nat → List Btn) (fuel k : Nat) :
    ∃ rest, (publishLoop btns (fuel + 1) k).1 = Ev.scan k :: rest := by
  rw [publishLoop]
  rcases findBtn (btns k) with _ | b <;> simp

theorem body_loginfail (e : Env) (file : String) (hl : e.launchOk = true)
    (ha : e.alreadyLoggedIn = false) (hf : e.loginFlowOk = false) :
    body e file = ([Ev.launch, Ev.gotoLogin, Ev.probeLogin false, Ev.typeCredentials,
      Ev.loginDiag], some .loginFlow) := by
  rw [body, hl, if_pos rfl, ha]
  simp only [Bool.false_eq_true, if_false]
  rw [hf]
  simp

theorem browserRun_loginfail (e : Env) (file : String) (hl : e.launchOk = true)
    (ha : e.alreadyLoggedIn = false) (hf : e.loginFlowOk = false) :
    browserRun e file = (.failed .loginFlow,
      [Ev.launch, Ev.gotoLogin, Ev.probeLogin false, Ev.typeCredentials, Ev.loginDiag,
       Ev.errorDiag, Ev.emailSent, Ev.closeBrowser]) := by
  rw [browserRun, body_loginfail e file hl ha hf]
  simp [hl]

theorem compose_trace_shape (e : Env) (file : String) (tr : List Ev) :
    ∃ rest, (body.compose e file tr).1 = tr ++ rest := by
  rw [body.compose]
  by_cases hc : e.composeOk = true
  · by_cases hf : e.fileInputOk = true
    · rcases hpl : publishLoop e.buttons 8 0 with ⟨lt, r⟩
      cases r with
      | none =>
        refine ⟨[Ev.gotoCompose, Ev.waitCompose true, Ev.waitFileInput true,
          Ev.attach file, Ev.settle] ++ lt ++ [Ev.dumpComposeHtml], ?_⟩
        simp [hc, hf, hpl, List.append_assoc]
      | some p =>
        refine ⟨[Ev.gotoCompose, Ev.waitCompose true, Ev.waitFileInput true,
          Ev.attach file, Ev.settle] ++ lt ++ [Ev.verifySleep, Ev.verifyShot,
          Ev.scanDialogs e.modals, Ev.logPosted file], ?_⟩
        simp [hc, hf, hpl, List.append_assoc]
    · refine ⟨[Ev.gotoCompose, Ev.waitCompose true, Ev.waitFileInput false], ?_⟩
      have hf2 : e.fileInputOk = false := by
        cases h2 : e.fileInputOk
        · rfl
        · exact absurd h2 hf
      simp [hc, hf2]
  · refine ⟨[Ev.gotoCompose, Ev.waitCompose false], ?_⟩
    have hc2 : e.composeOk = false := by
      cases h2 : e.composeOk
      · rfl
      · exact absurd h2 hc
    simp [hc2]

theorem body_launch_mem (e : Env) (file : String) : Ev.launch ∈ (body e file).1 := by
  rw [body]
  cases hl : e.launchOk with
  | false => simp
  | true =>
    simp only [if_true]
    by_cases ha : e.alreadyLoggedIn = true
    · obtain ⟨rest, hr⟩ := compose_trace_shape e file
        [Ev.launch, Ev.gotoLogin, Ev.probeLogin true]
      simp [ha, hr]
    · have ha2 : e.alreadyLoggedIn = false := by
        cases h2 : e.alreadyLoggedIn
        · rfl
        · exact absurd h2 ha
      by_cases hf : e.loginFlowOk = true
      · obtain ⟨rest, hr⟩ := compose_trace_shape e file
          [Ev.launch, Ev.gotoLogin, Ev.probeLogin false, Ev.typeCredentials]
        simp [ha2, hf, hr]
      · have hf2 : e.loginFlowOk = false := by
          cases h2 : e.loginFlowOk
          · rfl
          · exact absurd h2 hf
        simp [ha2, hf2]

theorem browserRun_getLast (e : Env) (file : String) (hl : e.launchOk = true) :
    (browserRun e file).2.getLast? = some Ev.closeBrowser := by
  rw [browserRun]
  rcases hb : body e file with ⟨tr, err⟩
  cases err with
  | none => simp [List.getLast?_concat]
  | some err =>
    have hsh : tr ++ ((if e.launchOk = true then [Ev.errorDiag] else []) ++ [Ev.emailSent]
        ++ (if e.launchOk = true then [Ev.closeBrowser] else []))
        = (tr ++ [Ev.errorDiag, Ev.emailSent]) ++ [Ev.closeBrowser] := by simp [hl]
    simp only [hsh]
    exact List.getLast?_concat _

/-! ## Concrete sample data for witnesses and counterexamples -/

/-- The directory snapshot of the spec's worked example. -/
def sampleFiles : List String := ["a.png", "b.mp4", "c.gif"]

/-- An environment in which every step succeeds: fresh cursor, first candidate
button already enabled, no dialogs. -/
def baseEnv : Env where
  files := sampleFiles
  cursor := none
  counterWriteOk := true
  launchOk := true
  alreadyLoggedIn := true
  loginFlowOk := true
  afterLoginMarker := true
  composeOk := true
  fileInputOk := true
  attachmentMarker := true
  buttons := fun _ => [("Post", false)]
  modals := []

/-! ## Claim theorems -/

/-- Claim C1: for every directory snapshot with `n ≥ 1` eligible files and an
initial cursor of 0, running the selection `n` times consecutively selects
each eligible file exactly once before any file repeats — the sequence of
selected files is exactly the file list, in order — and after the run with
current cursor `k` the cursor written back is `(k + 1) % n`. -/
theorem claim1_selectNext_cycle (files : List String) (h : files ≠ []) :
    runStream files (some "0") files.length =
      (List.range files.length).map (fun k =>
        (SelResult.ok ⟨files.getD k "", k, (k + 1) % files.length⟩,
         some ((k + 1) % files.length))) ∧
    streamFiles (runStream files (some "0") files.length) = files := by
  have h0 : (some (natRepr 0) : Option String) = some "0" := by decide
  have key := runStream_eq files h files.length 0 (List.length_pos.mpr h)
  rw [h0] at key
  have key2 : runStream files (some "0") files.length =
      (List.range files.length).map (fun k =>
        (SelResult.ok ⟨files.getD k "", k, (k + 1) % files.length⟩,
         some ((k + 1) % files.length))) := by
    rw [key]
    apply List.map_congr_left
    intro j hj
    have hj' : j < files.length := List.mem_range.mp hj
    simp [Nat.mod_eq_of_lt hj']
  refine ⟨key2, ?_⟩
  rw [key2]
  unfold streamFiles
  rw [List.map_map]
  rw [show ((fun p => match p.1 with | SelResult.ok s => s.file | SelResult.err _ => "")
      ∘ (fun k => ((SelResult.ok ⟨files.getD k "", k, (k + 1) % files.length⟩ : SelResult),
          (some ((k + 1) % files.length) : Option Nat))))
      = fun k => files.getD k "" from funext fun k => rfl]
  exact map_getD_range files

theorem claim1_selectNext_cycle_witness :
    sampleFiles ≠ [] ∧
    (runStream sampleFiles (some "0") sampleFiles.length =
      (List.range sampleFiles.length).map (fun k =>
        (SelResult.ok ⟨sampleFiles.getD k "", k, (k + 1) % sampleFiles.length⟩,
         some ((k + 1) % sampleFiles.length))) ∧
     streamFiles (runStream sampleFiles (some "0") sampleFiles.length) = sampleFiles) :=
  ⟨by decide, claim1_selectNext_cycle sampleFiles (by decide)⟩

/-- Claim C2 counterexample: the cursor value `"-1"` is outside
`[0, queue length)`, yet the selection does not behave like a
freshly-initialized cursor of 0: the reset guard only catches `NaN` and
values `≥ queue length`, so `files[-1]` is `undefined` and `path.join`
throws before any file is selected or any cursor is written. -/
theorem claim2_negative_cursor_counterexample :
    selectNext sampleFiles (some "-1") = (.err .badPath, none) ∧
    selectNext sampleFiles (some "0") = (.ok ⟨"a.png", 0, 1⟩, some 1) ∧
    selectNext sampleFiles (some "-1") ≠ selectNext sampleFiles (some "0") := by
  decide

/-- Cursor contents the reset guard actually recovers from: a missing file,
text with no parsable integer, or a parsed value `≥ queue length`. -/
def malformedCursor (len : Nat) (content : Option String) : Prop :=
  content = none ∨
    ∃ s, content = some s ∧
      (parseIntJs s = none ∨ ∃ v, parseIntJs s = some v ∧ (len : Int) ≤ v)

/-- Claim C2 (amended): for every stored cursor that is missing, unparsable,
or parses to a value `≥ queue length`, the selection behaves identically to a
freshly-initialized cursor of 0 — same file selected, same next cursor
written, no error.  (A stored cursor that parses to a negative value is not
recovered: it aborts the run before selection, see the counterexample.) -/
theorem claim2_malformed_cursor_resets (files : List String) (content : Option String)
    (h : malformedCursor files.length content) :
    selectNext files content = selectNext files (some "0") := by
  have hz : loadIdx files (some "0") = 0 := by
    simp only [loadIdx, show parseIntJs "0" = some 0 by decide]
    exact ite_self 0
  have hc : loadIdx files content = 0 := by
    rcases h with rfl | ⟨s, rfl, hcase⟩
    · rfl
    · rcases hcase with hn | ⟨v, hv, hge⟩
      · simp [loadIdx, hn]
      · simp [loadIdx, hv, hge]
  unfold selectNext
  rw [hc, hz]

theorem claim2_malformed_cursor_resets_witness :
    malformedCursor sampleFiles.length (some "7") ∧
    selectNext sampleFiles (some "7") = selectNext sampleFiles (some "0") :=
  ⟨Or.inr ⟨"7", rfl, Or.inr ⟨7, by decide, by decide⟩⟩,
   claim2_malformed_cursor_resets sampleFiles (some "7")
     (Or.inr ⟨"7", rfl, Or.inr ⟨7, by decide, by decide⟩⟩)⟩

/-- Claim C3: with zero eligible files the run reports the empty queue and
exits before any cursor write: the cursor file content after the run is
whatever it was before, no cursor-write event occurs, and the selection step
fails with `emptyQueue` performing no write. -/
theorem claim3_empty_queue_no_write (e : Env) (h : e.files = [])
    (content : Option String) :
    run e = ⟨.emptyQueue, [Ev.exitEmpty], e.cursor⟩ ∧
    (∀ n, Ev.writeCursor n ∉ (run e).trace) ∧
    selectNext [] content = (.err .emptyQueue, none) := by
  have hrun : run e = ⟨.emptyQueue, [Ev.exitEmpty], e.cursor⟩ := by
    simp [run, h]
  refine ⟨hrun, ?_, rfl⟩
  intro n
  rw [hrun]
  simp

theorem claim3_empty_queue_no_write_witness :
    run { baseEnv with files := [] } = ⟨.emptyQueue, [Ev.exitEmpty], none⟩ ∧
    (∀ n, Ev.writeCursor n ∉ (run { baseEnv with files := [] }).trace) ∧
    selectNext [] (some "2") = (.err .emptyQueue, none) :=
  claim3_empty_queue_no_write { baseEnv with files := [] } rfl (some "2")

/-- Claim C4 counterexample: in an environment where an "attachment accepted"
marker never appears, the run does not fail — it proceeds to the
publish-control search (attempt 0 is scanned) and posts.  The script performs
no marker check after `uploadFile`. -/
theorem claim4_no_attachment_marker_counterexample :
    ({ baseEnv with attachmentMarker := false } : Env).attachmentMarker = false ∧
    (run { baseEnv with attachmentMarker := false }).outcome = Outcome.posted "a.png" ∧
    Ev.scan 0 ∈ (run { baseEnv with attachmentMarker := false }).trace := by
  decide

/-- Claim C4 (amended): after attaching the file the run waits the fixed
settle interval and then proceeds directly to the publish-control search —
the attach event is immediately followed by the settle sleep and scan 0 —
and the run's behaviour is entirely independent of whether an "attachment
accepted" marker would appear.  There is no `UploadRejected` failure mode. -/
theorem claim4_upload_proceeds_to_search (e : Env) (b : Bool)
    (hne : e.files.isEmpty = false) (hidx : ¬ loadIdx e.files e.cursor < 0)
    (hl : e.launchOk = true) (hlog : e.alreadyLoggedIn = true ∨ e.loginFlowOk = true)
    (hcomp : e.composeOk = true) (hfi : e.fileInputOk = true) :
    run { e with attachmentMarker := b } = run e ∧
    ∃ l1 l2, (run e).trace =
      l1 ++ Ev.attach (fileOf e) :: Ev.settle :: Ev.scan 0 :: l2 := by
  refine ⟨rfl, ?_⟩
  obtain ⟨rest, hrest⟩ := publishLoop_head e.buttons 7 0
  have hrest8 : (publishLoop e.buttons 8 0).1 = Ev.scan 0 :: rest := by
    rw [show (8 : Nat) = 7 + 1 from rfl]
    exact hrest
  rw [run_trace_eq e hne hidx, browserRun_goodtrace e (fileOf e) hl hlog hcomp hfi, hrest8]
  refine ⟨cursorEv e :: loginTrace e ++ [Ev.gotoCompose, Ev.waitCompose true,
    Ev.waitFileInput true], rest ++ finTrace e (fileOf e), ?_⟩
  simp [List.append_assoc]

theorem claim4_upload_proceeds_to_search_witness :
    run { baseEnv with attachmentMarker := true } = run baseEnv ∧
    ∃ l1 l2, (run baseEnv).trace =
      l1 ++ Ev.attach (fileOf baseEnv) :: Ev.settle :: Ev.scan 0 :: l2 :=
  claim4_upload_proceeds_to_search baseEnv true (by decide) (by decide) (by decide)
    (Or.inl (by decide)) (by decide) (by decide)

/-- Environment of the spec's publish-retry example: the Post control is
disabled on attempts 1-4 and becomes enabled on attempt 5 (index 4). -/
def env5 : Env := { baseEnv with
  buttons := fun k => if k < 4 then [("Post", true)] else [("Post", false)] }

/-- Claim C5: the publish-control search runs at most 8 attempts with a
2-second sleep after each unsuccessful one; on each attempt it takes the
first candidate whose trimmed text is exactly "Post" or "Tweet"
(case-insensitive) and whose disabled state is false; a match on attempt `k`
is clicked once and no further attempts occur; if all 8 attempts find no
match the run fails. -/
theorem claim5_publish_control_search (e : Env)
    (hne : e.files.isEmpty = false) (hidx : ¬ loadIdx e.files e.cursor < 0)
    (hl : e.launchOk = true) (hlog : e.alreadyLoggedIn = true ∨ e.loginFlowOk = true)
    (hcomp : e.composeOk = true) (hfi : e.fileInputOk = true) :
    (∀ k b, k < 8 → (∀ j, j < k → findBtn (e.buttons j) = none) →
      findBtn (e.buttons k) = some b →
      publishLoop e.buttons 8 0 =
        (scanTrace 0 k ++ [Ev.scan k, Ev.click k b.1], some (k, b.1)) ∧
      pubPred b = true ∧
      (∃ l1 l2, e.buttons k = l1 ++ b :: l2 ∧ ∀ x ∈ l1, pubPred x = false) ∧
      (run e).outcome = Outcome.posted (fileOf e)) ∧
    ((∀ j, j < 8 → findBtn (e.buttons j) = none) →
      publishLoop e.buttons 8 0 = (scanTrace 0 8, none) ∧
      (run e).outcome = Outcome.failed RunError.noPublishButton) := by
  constructor
  · intro k b hk hprev hb
    have hloop := publishLoop_found e.buttons b k 8 0 hk
      (fun j hj => by simpa using hprev j hj) (by simpa using hb)
    rw [Nat.zero_add] at hloop
    obtain ⟨hpb, hfirst⟩ := findBtn_first (e.buttons k) b hb
    refine ⟨hloop, hpb, hfirst, ?_⟩
    rw [run_outcome_eq e hne hidx,
      browserRun_outcome_good e (fileOf e) hl hlog hcomp hfi, hloop]
  · intro hnone
    have hloop := publishLoop_none e.buttons 8 0 (fun j hj => by simpa using hnone j hj)
    refine ⟨hloop, ?_⟩
    rw [run_outcome_eq e hne hidx,
      browserRun_outcome_good e (fileOf e) hl hlog hcomp hfi, hloop]

theorem claim5_publish_control_search_witness :
    publishLoop env5.buttons 8 0 =
      (scanTrace 0 4 ++ [Ev.scan 4, Ev.click 4 "Post"], some (4, "Post")) ∧
    (run env5).outcome = Outcome.posted (fileOf env5) := by
  have h := (claim5_publish_control_search env5 (by decide) (by decide) (by decide)
    (Or.inl (by decide)) (by decide) (by decide)).1 4 ("Post", false) (by decide)
    (by decide) (by decide)
  exact ⟨h.1, h.2.2.2⟩

/-- Claim C6: in every run that selects a file and whose counter write
succeeds, the advanced cursor is written as the very first event — before any
network or browser activity — the persisted cursor equals the advanced value
whatever the outcome of the rest of the run, and the advanced value is
`(current + 1) mod queue length`. -/
theorem claim6_cursor_write_before_network (e : Env)
    (hne : e.files.isEmpty = false) (hidx : ¬ loadIdx e.files e.cursor < 0)
    (hw : e.counterWriteOk = true) :
    (run e).trace.head? = some (Ev.writeCursor (nextOf e)) ∧
    (∀ i ev, (run e).trace.get? i = some ev → isNetworkEv ev = true → 0 < i) ∧
    (run e).finalCursor = some (natRepr (nextOf e)) ∧
    nextOf e = ((loadIdx e.files e.cursor).toNat + 1) % e.files.length := by
  have htr := run_trace_eq e hne hidx
  have hcev : cursorEv e = Ev.writeCursor (nextOf e) := by rw [cursorEv, if_pos hw]
  have hnenil : e.files ≠ [] := by
    cases hfs : e.files
    · rw [hfs] at hne; simp at hne
    · simp
  refine ⟨by rw [htr, hcev]; rfl, ?_, ?_, ?_⟩
  · intro i ev hget hnet
    cases i with
    | zero =>
      rw [htr, hcev, List.get?_cons_zero] at hget
      obtain rfl := Option.some.inj hget
      simp [isNetworkEv] at hnet
    | succ n => exact Nat.succ_pos n
  · rw [run_finalCursor_eq e hne hidx, if_pos hw]
  · have hlt : loadIdx e.files e.cursor < (e.files.length : Int) :=
      loadIdx_lt e.files e.cursor hnenil
    have htn : (loadIdx e.files e.cursor).toNat < e.files.length := by omega
    exact nextIdx_eq_mod e.files _ htn

/-- Environment whose browser launch fails: the cursor is still advanced
first. -/
def env6 : Env := { baseEnv with launchOk := false }

theorem claim6_cursor_write_before_network_witness :
    (run env6).trace.head? = some (Ev.writeCursor (nextOf env6)) ∧
    (∀ i ev, (run env6).trace.get? i = some ev → isNetworkEv ev = true → 0 < i) ∧
    (run env6).finalCursor = some (natRepr (nextOf env6)) ∧
    nextOf env6 = ((loadIdx env6.files env6.cursor).toNat + 1) % env6.files.length :=
  claim6_cursor_write_before_network env6 (by decide) (by decide) (by decide)

/-- Environment whose post-click dialog contains failure keywords. -/
def env7 : Env := { baseEnv with
  modals := ["Something went wrong. Please try again."] }

/-- Claim C7: after a successful click of the publish control the run scans
the alert/dialog elements, and whatever their contents — in particular texts
containing "error", "failed" or "try again" — the outcome is still reported
as posted: dialog contents never flip a successful click into a failure. -/
theorem claim7_dialog_scan_advisory (e : Env)
    (hne : e.files.isEmpty = false) (hidx : ¬ loadIdx e.files e.cursor < 0)
    (hl : e.launchOk = true) (hlog : e.alreadyLoggedIn = true ∨ e.loginFlowOk = true)
    (hcomp : e.composeOk = true) (hfi : e.fileInputOk = true)
    (p : Nat × String) (hp : (publishLoop e.buttons 8 0).2 = some p) :
    (run e).outcome = Outcome.posted (fileOf e) ∧
    Ev.scanDialogs e.modals ∈ (run e).trace ∧
    (∀ m, (run { e with modals := m }).outcome = Outcome.posted (fileOf e)) := by
  have hout : (run e).outcome = Outcome.posted (fileOf e) := by
    rw [run_outcome_eq e hne hidx,
      browserRun_outcome_good e (fileOf e) hl hlog hcomp hfi, hp]
  refine ⟨hout, ?_, ?_⟩
  · rw [run_trace_eq e hne hidx, browserRun_goodtrace e (fileOf e) hl hlog hcomp hfi]
    simp [finTrace, hp]
  · intro m
    have h1 := run_outcome_eq { e with modals := m } hne hidx
    have h2 := browserRun_outcome_good { e with modals := m }
      (fileOf { e with modals := m }) hl hlog hcomp hfi
    rw [h1, h2]
    show (match (publishLoop e.buttons 8 0).2 with
      | some _ => Outcome.posted (fileOf e)
      | none => Outcome.failed .noPublishButton) = Outcome.posted (fileOf e)
    rw [hp]

theorem claim7_dialog_scan_advisory_witness :
    (run env7).outcome = Outcome.posted (fileOf env7) ∧
    Ev.scanDialogs env7.modals ∈ (run env7).trace ∧
    (∀ m, (run { env7 with modals := m }).outcome = Outcome.posted (fileOf env7)) :=
  claim7_dialog_scan_advisory env7 (by decide) (by decide) (by decide)
    (Or.inl (by decide)) (by decide) (by decide) (0, "Post") (by decide)

/-- Environment where the interactive login flow completes without throwing
but the authenticated markers would still be absent afterwards. -/
def env8 : Env := { baseEnv with
  alreadyLoggedIn := false
  loginFlowOk := true
  afterLoginMarker := false }

/-- Claim C8 counterexample: the interactive login flow completes, a re-probe
of the authenticated markers would find none, yet the run does not fail with
a login error — it proceeds and posts, and the markers are probed exactly
once in the whole run (before the flow, never after it). -/
theorem claim8_no_reprobe_counterexample :
    env8.afterLoginMarker = false ∧
    (run env8).outcome = Outcome.posted "a.png" ∧
    ((run env8).trace.countP (fun ev => match ev with
      | Ev.probeLogin _ => true
      | _ => false)) = 1 := by
  decide

/-- Claim C8 (amended): when the interactive login flow itself throws (a wait
inside it times out), a diagnostic bundle (screenshot and markup dump) is
written before the error propagates, the credentials are typed exactly once
(no retry), and the run never consults what a post-login re-probe of the
authenticated markers would observe; a flow that completes without throwing
is never re-probed. -/
theorem claim8_login_flow_failure_diag (e : Env)
    (hne : e.files.isEmpty = false) (hidx : ¬ loadIdx e.files e.cursor < 0)
    (hl : e.launchOk = true) (ha : e.alreadyLoggedIn = false)
    (hf : e.loginFlowOk = false) :
    (run e).outcome = Outcome.failed RunError.loginFlow ∧
    (run e).trace = cursorEv e :: [Ev.launch, Ev.gotoLogin, Ev.probeLogin false,
      Ev.typeCredentials, Ev.loginDiag, Ev.errorDiag, Ev.emailSent, Ev.closeBrowser] ∧
    ((run e).trace.countP (fun ev => match ev with
      | Ev.typeCredentials => true
      | _ => false)) = 1 ∧
    (∀ b, run { e with afterLoginMarker := b } = run e) := by
  have hbr := browserRun_loginfail e (fileOf e) hl ha hf
  have htr : (run e).trace = cursorEv e :: [Ev.launch, Ev.gotoLogin, Ev.probeLogin false,
      Ev.typeCredentials, Ev.loginDiag, Ev.errorDiag, Ev.emailSent, Ev.closeBrowser] := by
    rw [run_trace_eq e hne hidx, hbr]
  refine ⟨?_, htr, ?_, fun b => rfl⟩
  · rw [run_outcome_eq e hne hidx, hbr]
  · rw [htr]
    by_cases hw : e.counterWriteOk = true <;> simp [cursorEv, hw]

/-- Environment whose interactive login flow throws. -/
def env8f : Env := { baseEnv with alreadyLoggedIn := false, loginFlowOk := false }

theorem claim8_login_flow_failure_diag_witness :
    (run env8f).outcome = Outcome.failed RunError.loginFlow ∧
    (run env8f).trace = cursorEv env8f :: [Ev.launch, Ev.gotoLogin, Ev.probeLogin false,
      Ev.typeCredentials, Ev.loginDiag, Ev.errorDiag, Ev.emailSent, Ev.closeBrowser] ∧
    ((run env8f).trace.countP (fun ev => match ev with
      | Ev.typeCredentials => true
      | _ => false)) = 1 ∧
    (∀ b, run { env8f with afterLoginMarker := b } = run env8f) :=
  claim8_login_flow_failure_diag env8f (by decide) (by decide) (by decide)
    (by decide) (by decide)

/-- Claim C9: on every exit path of a run in which the browser was acquired,
the browser close is the very last event of the run. -/
theorem claim9_browser_closed_on_exit (e : Env)
    (hne : e.files.isEmpty = false) (hidx : ¬ loadIdx e.files e.cursor < 0)
    (hl : e.launchOk = true) :
    Ev.launch ∈ (run e).trace ∧
    (run e).trace.getLast? = some Ev.closeBrowser := by
  have htr := run_trace_eq e hne hidx
  constructor
  · rw [htr]
    have hmem : Ev.launch ∈ (browserRun e (fileOf e)).2 := by
      rw [browserRun]
      rcases hb : body e (fileOf e) with ⟨tr, err⟩
      have hm := body_launch_mem e (fileOf e)
      rw [hb] at hm
      cases err <;> simp [hm]
    simp [hmem]
  · rw [htr]
    have hlast := browserRun_getLast e (fileOf e) hl
    cases hbl : (browserRun e (fileOf e)).2 with
    | nil => rw [hbl] at hlast; simp at hlast
    | cons x xs =>
      rw [hbl] at hlast
      rw [show cursorEv e :: x :: xs = [cursorEv e] ++ (x :: xs) from rfl,
        List.getLast?_append, hlast]
      rfl

/-- Environment in which no enabled publish control ever appears: the run
fails, and the browser is still closed last. -/
def env9 : Env := { baseEnv with buttons := fun _ => [] }

theorem claim9_browser_closed_on_exit_witness :
    (Ev.launch ∈ (run env9).trace ∧
      (run env9).trace.getLast? = some Ev.closeBrowser) ∧
    (run env9).outcome = Outcome.failed RunError.noPublishButton :=
  ⟨claim9_browser_closed_on_exit env9 (by decide) (by decide) (by decide), by decide⟩

/-- Claim C10: when the write of the advanced cursor fails, only a warning is
recorded (as the first event, in place of the write), the cursor file is left
unchanged, the run proceeds exactly as a run whose write succeeded — same
outcome — and the next run, reading the unchanged cursor, makes the same
selection again. -/
theorem claim10_cursor_write_failure_swallowed (e : Env)
    (hne : e.files.isEmpty = false) (hidx : ¬ loadIdx e.files e.cursor < 0)
    (hw : e.counterWriteOk = false) :
    (run e).trace.head? = some (Ev.warnCursorWrite (nextOf e)) ∧
    (run e).finalCursor = e.cursor ∧
    (run e).outcome = (run { e with counterWriteOk := true }).outcome ∧
    selectNext e.files ((run e).finalCursor) = selectNext e.files e.cursor := by
  have htr := run_trace_eq e hne hidx
  have hcev : cursorEv e = Ev.warnCursorWrite (nextOf e) := by
    rw [cursorEv, if_neg (by simp [hw])]
  have hfc : (run e).finalCursor = e.cursor := by
    rw [run_finalCursor_eq e hne hidx, if_neg (by simp [hw])]
  refine ⟨by rw [htr, hcev]; rfl, hfc, ?_, by rw [hfc]⟩
  rw [run_outcome_eq e hne hidx, run_outcome_eq { e with counterWriteOk := true } hne hidx]
  rfl

/-- Environment whose counter write fails. -/
def env10 : Env := { baseEnv with counterWriteOk := false }

theorem claim10_cursor_write_failure_swallowed_witness :
    (run env10).trace.head? = some (Ev.warnCursorWrite (nextOf env10)) ∧
    (run env10).finalCursor = env10.cursor ∧
    (run env10).outcome = (run { env10 with counterWriteOk := true }).outcome ∧
    selectNext env10.files ((run env10).finalCursor) = selectNext env10.files env10.cursor :=
  claim10_cursor_write_failure_swallowed env10 (by decide) (by decide) (by decide)

end TwitterBot
